import Mathlib

/-!
# OpenSCAD viewport core: colour policy, mesh rasteriser, picking

A shallow embedding of `src/mouseselector.cc` and `src/renderer.cc`.

* OpenGL and Qt calls are side effects; every function that issues them returns the
  list of calls it issued, in order (`GLCall`).
* `float` and `double` values are exact rationals.  The functions below only copy,
  compare, add, subtract, multiply and divide them; `sqrt` is supplied from outside.
* `int` results that can leave the 32-bit range are reduced with `wrapInt32`.
* Declarations that live in headers (`Camera`, `Color4f`, `PolySet`, the enums) are
  modelled by the members the two source files use.
-/

namespace OpenSCAD

/-! ## Scalars and small types -/

/-- Two-complement value of a 32-bit pattern: what an `int` holds after an
arithmetic result or a converted `unsigned int` is cut to 32 bits. -/
def wrapInt32 (n : Int) : Int := (n + 2147483648) % 4294967296 - 2147483648

/-- Value of an `int` after conversion to `unsigned int`. -/
def toUInt32 (n : Int) : Int := n % 4294967296

/-- Eigen `Vector3d`; `p[0]`, `p[1]`, `p[2]` are `x`, `y`, `z`. -/
structure Vector3d where
  x : Rat
  y : Rat
  z : Rat
  deriving DecidableEq, Repr

/-- Eigen `Vector2d`. -/
structure Vector2d where
  x : Rat
  y : Rat
  deriving DecidableEq, Repr

/-- Colour with four channels (`Color4f`, an Eigen `Vector4f`). -/
structure Color4f where
  r : Rat
  g : Rat
  b : Rat
  a : Rat
  deriving DecidableEq, Repr

/-- Capabilities passed to `glEnable` / `glDisable` in the two files. -/
inductive GLCap
  | LIGHTING
  | CULL_FACE
  | DEPTH_TEST
  deriving DecidableEq, Repr

/-- Primitive modes passed to `glBegin`. -/
inductive GLPrim
  | TRIANGLES
  | LINE_LOOP
  | LINES
  deriving DecidableEq, Repr

/-- One call into OpenGL or into the Qt framebuffer object. -/
inductive GLCall
  | fboCreate (w h : Int)
  | fboBind
  | fboRelease
  | glGetError
  | glClearColor (r g b a : Rat)
  | glClear
  | glViewport (x y w h : Int)
  | setupCamera
  | glTranslated (x y z : Rat)
  | glDisable (cap : GLCap)
  | glEnable (cap : GLCap)
  | glDepthFunc
  | glCullFace
  | glReadPixels (x y w h : Int)
  | glColor4fv (c : Color4f)
  | glUniform1f (loc : Int) (v : Rat)
  | glUniform4f (loc : Int) (a b c d : Rat)
  | glVertexAttrib3d (loc : Int) (a b c : Rat)
  | glNormal3d (x y z : Rat)
  | glVertex3d (x y z : Rat)
  | glBegin (mode : GLPrim)
  | glEnd
  deriving DecidableEq, Repr

/-- Tag of `GLView::shaderinfo_t`. -/
inductive shader_type_t
  | NONE
  | CSG_RENDERING
  | SELECT_RENDERING
  deriving DecidableEq, Repr

/-- Locations held by the `csg_rendering` member of the descriptor union. -/
structure csg_rendering_t where
  color_area : Int
  color_edge : Int
  trig : Int
  point_b : Int
  point_c : Int
  mask : Int
  xscale : Int
  yscale : Int
  deriving DecidableEq, Repr

/-- Location held by the `select_rendering` member of the descriptor union. -/
structure select_rendering_t where
  identifier : Int
  deriving DecidableEq, Repr

/-- Shader descriptor `GLView::shaderinfo_t`; a null pointer is `none` at the use site. -/
structure shaderinfo_t where
  progid : Int
  type : shader_type_t
  csg_rendering : csg_rendering_t
  select_rendering : select_rendering_t
  vp_size_x : Rat
  vp_size_y : Rat
  deriving DecidableEq, Repr

/-! ## `mouseselector.cc` -/

/-- Camera members read by the selector. -/
structure Camera where
  pixel_width : Int
  pixel_height : Int
  object_trans : Vector3d
  deriving DecidableEq, Repr

/-- View members read by the selector. -/
structure GLView where
  cam : Camera
  has_shaders : Bool
  deriving DecidableEq, Repr

/-- Declared type of `Camera::pixel_width` and `Camera::pixel_height`.  The header is
not among the sources, so both readings are kept: with `unsigned int` an `int`
compared against the dimension is first converted to `unsigned int`. -/
inductive DimType
  | int
  | unsigned
  deriving DecidableEq, Repr

/-- Comparison `a > dim` of an `int` against a camera dimension. -/
def gtDim (k : DimType) (a dim : Int) : Bool :=
  match k with
  | .int => decide (a > dim)
  | .unsigned => decide (toUInt32 a > dim)

/-- Size of an allocated `QOpenGLFramebufferObject`. -/
structure QOpenGLFramebufferObject where
  width : Int
  height : Int
  deriving DecidableEq, Repr

/-- State of a `MouseSelector`; `framebuffer` is the owning pointer, `none` when null. -/
structure MouseSelector where
  view : GLView
  framebuffer : Option QOpenGLFramebufferObject
  shaderinfo : shaderinfo_t
  deriving DecidableEq, Repr

/-- Integer numerators of the three colour channels written by the picking vertex
shader, `((identifier >> k) & 0xff)` for `k = 0, 8, 16`.  The shader divides each by
`255.0`; the 8-bit colour buffer stores the byte again. -/
def vs_idcolor (identifier : Nat) : Nat × Nat × Nat :=
  ((identifier >>> 0) &&& 0xff, (identifier >>> 8) &&& 0xff, (identifier >>> 16) &&& 0xff)

/-- Index recovered from the three bytes read back,
`(uint32_t)color[0] | ((uint32_t)color[1] << 8) | ((uint32_t)color[2] << 16)`,
converted to `int`. -/
def decodeIndex (color : Nat × Nat × Nat) : Int :=
  wrapInt32 (((color.1 % 4294967296) ||| ((color.2.1 <<< 8) % 4294967296)
    ||| ((color.2.2 <<< 16) % 4294967296) : Nat) : Int)

/-- Body of `MouseSelector::setup_framebuffer`: the new state and the calls issued. -/
def MouseSelector.setup_framebuffer (self : MouseSelector) (view : GLView) :
    MouseSelector × List GLCall :=
  let stale : Bool :=
    match self.framebuffer with
    | none => true
    | some fb => fb.width != view.cam.pixel_width || fb.height != view.cam.pixel_height
  if stale then
    let fb := QOpenGLFramebufferObject.mk view.cam.pixel_width view.cam.pixel_width
    ({ self with framebuffer := some fb },
     [GLCall.fboCreate view.cam.pixel_width view.cam.pixel_width, GLCall.fboRelease])
  else
    (self, [])

/-- Body of `MouseSelector::reset`. -/
def MouseSelector.reset (self : MouseSelector) (view : GLView) :
    MouseSelector × List GLCall :=
  MouseSelector.setup_framebuffer { self with view := view } view

/-- Number of framebuffer allocations in a call log. -/
def allocations (calls : List GLCall) : Nat :=
  (calls.filter fun c => match c with
    | .fboCreate _ _ => true
    | _ => false).length

/-- The bounds test of `MouseSelector::select` on the flipped `y`:
`x > W || x < 0 || y > H || y < 0`. -/
def outOfBounds (k : DimType) (cam : Camera) (x yf : Int) : Bool :=
  gtDim k x cam.pixel_width || decide (x < 0) ||
    gtDim k yf cam.pixel_height || decide (yf < 0)

/-- Body of `MouseSelector::select`.  `draw` is what `renderer->draw_with_shader`
issues for the given descriptor, `pixels x y` the three bytes `glReadPixels` stores
for the pixel at `(x, y)`.  The result is `none` when the framebuffer pointer is null
at its first use; otherwise the returned `int` and the calls issued. -/
def MouseSelector.select (k : DimType) (self : MouseSelector)
    (draw : shaderinfo_t → List GLCall) (pixels : Int → Int → Nat × Nat × Nat)
    (x y : Int) : Option (Int × List GLCall) :=
  let cam := self.view.cam
  let yf := wrapInt32 (cam.pixel_height - y)
  if outOfBounds k cam x yf then
    some (-1, [])
  else
    match self.framebuffer with
    | none => none
    | some _ =>
      let color : Nat × Nat × Nat :=
        ((pixels x yf).1 % 256, (pixels x yf).2.1 % 256, (pixels x yf).2.2 % 256)
      let index := decodeIndex color
      some (index,
        [GLCall.fboBind, GLCall.glGetError,
         GLCall.glClearColor 0 0 0 1, GLCall.glClear,
         GLCall.glViewport 0 0 cam.pixel_width cam.pixel_height,
         GLCall.setupCamera,
         GLCall.glTranslated cam.object_trans.x cam.object_trans.y cam.object_trans.z,
         GLCall.glDisable GLCap.LIGHTING, GLCall.glDepthFunc, GLCall.glCullFace,
         GLCall.glDisable GLCap.CULL_FACE, GLCall.glEnable GLCap.DEPTH_TEST]
        ++ draw self.shaderinfo
        ++ [GLCall.glGetError,
            GLCall.glReadPixels x yf 1 1, GLCall.glGetError,
            GLCall.fboRelease])


/-! ## `renderer.cc`: colour policy -/

/-- Colour roles `Renderer::ColorMode`. -/
inductive ColorMode
  | NONE
  | MATERIAL
  | CUTOUT
  | HIGHLIGHT
  | BACKGROUND
  | MATERIAL_EDGES
  | CUTOUT_EDGES
  | HIGHLIGHT_EDGES
  | BACKGROUND_EDGES
  | EMPTY_SPACE
  deriving DecidableEq, Repr

/-- Colour-scheme keys read by `Renderer::setColorScheme`. -/
inductive RenderColor
  | BACKGROUND_COLOR
  | OPENCSG_FACE_FRONT_COLOR
  | OPENCSG_FACE_BACK_COLOR
  | CGAL_EDGE_FRONT_COLOR
  | CGAL_EDGE_BACK_COLOR
  deriving DecidableEq, Repr

/-- What the colour policy takes from outside `renderer.cc`, for a type `ColorScheme`
of colour schemes: `rgba` is the `Color4f` built from a braced list of four `int`s,
`uninit` the value of a default-constructed `Color4f`, `getColor` is
`ColorMap::getColor`, `defaultColorScheme` is `ColorMap::inst()->defaultColorScheme()`. -/
structure ColorEnv (ColorScheme : Type) where
  rgba : Int → Int → Int → Int → Color4f
  uninit : Color4f
  getColor : ColorScheme → RenderColor → Color4f
  defaultColorScheme : ColorScheme

/-- Preprocessor switches of the translation unit (with `NULLGL` undefined; under
`NULLGL` the drawing functions have empty bodies). -/
structure Build where
  ENABLE_OPENCSG : Bool
  NDEBUG : Bool
  deriving DecidableEq, Repr

/-- State of a `Renderer`: the `std::map` from role to colour and the scheme pointer. -/
structure Renderer (ColorScheme : Type) where
  colormap : ColorMode → Option Color4f
  colorscheme : Option ColorScheme

/-- Assignment `colormap[key] = value`. -/
def mapSet (m : ColorMode → Option Color4f) (key : ColorMode) (value : Color4f) :
    ColorMode → Option Color4f :=
  fun k => if k = key then some value else m k

/-- Body of `Renderer::getColor`: the returned flag and the value of `col` afterwards. -/
def Renderer.getColor {CS : Type} (self : Renderer CS) (colormode : ColorMode)
    (col : Color4f) : Bool × Color4f :=
  if colormode = ColorMode.NONE then (false, col)
  else
    match self.colormap colormode with
    | some c => (true, c)
    | none => (false, col)

/-- Body of `Renderer::setColorScheme`. -/
def Renderer.setColorScheme {CS : Type} (env : ColorEnv CS) (self : Renderer CS) (cs : CS) :
    Renderer CS :=
  let m1 := mapSet self.colormap ColorMode.MATERIAL
    (env.getColor cs RenderColor.OPENCSG_FACE_FRONT_COLOR)
  let m2 := mapSet m1 ColorMode.CUTOUT (env.getColor cs RenderColor.OPENCSG_FACE_BACK_COLOR)
  let m3 := mapSet m2 ColorMode.MATERIAL_EDGES
    (env.getColor cs RenderColor.CGAL_EDGE_FRONT_COLOR)
  let m4 := mapSet m3 ColorMode.CUTOUT_EDGES (env.getColor cs RenderColor.CGAL_EDGE_BACK_COLOR)
  let m5 := mapSet m4 ColorMode.EMPTY_SPACE (env.getColor cs RenderColor.BACKGROUND_COLOR)
  { colormap := m5, colorscheme := some cs }

/-- Body of the constructor `Renderer::Renderer`. -/
def Renderer.new {CS : Type} (env : ColorEnv CS) : Renderer CS :=
  let m0 : ColorMode → Option Color4f := fun _ => none
  let m1 := mapSet m0 ColorMode.HIGHLIGHT (env.rgba 255 81 81 128)
  let m2 := mapSet m1 ColorMode.BACKGROUND (env.rgba 180 180 180 128)
  let m3 := mapSet m2 ColorMode.HIGHLIGHT_EDGES (env.rgba 255 171 86 128)
  let m4 := mapSet m3 ColorMode.BACKGROUND_EDGES (env.rgba 150 150 150 128)
  Renderer.setColorScheme env { colormap := m4, colorscheme := none } env.defaultColorScheme

/-- Body of `Renderer::setColor(const float color[4], const shaderinfo_t *)`. -/
def Renderer.setColor_color {CS : Type} (env : ColorEnv CS) (build : Build)
    (self : Renderer CS) (color : Color4f) (shaderinfo : Option shaderinfo_t) : List GLCall :=
  let skip : Bool :=
    match shaderinfo with
    | some si => si.type != shader_type_t.CSG_RENDERING
    | none => false
  if skip then []
  else
    let col := (self.getColor ColorMode.MATERIAL env.uninit).2
    let c0 := if color.r < 0 then col.r else color.r
    let c1 := if color.g < 0 then col.g else color.g
    let c2 := if color.b < 0 then col.b else color.b
    let c3 := if color.a < 0 then col.a else color.a
    [GLCall.glColor4fv ⟨c0, c1, c2, c3⟩] ++
      (if build.ENABLE_OPENCSG then
        match shaderinfo with
        | some si =>
          [GLCall.glUniform4f si.csg_rendering.color_area c0 c1 c2 c3,
           GLCall.glUniform4f si.csg_rendering.color_edge
             ((c0 + 1) / 2) ((c1 + 1) / 2) ((c2 + 1) / 2) 1]
        | none => []
      else [])

/-- The braced list built in both overriding branches of `setColor`: each channel of
`color` that is `>= 0` is kept, the others come from `basecol`. -/
def overrideChannels (color basecol : Color4f) : Color4f :=
  ⟨if color.r ≥ 0 then color.r else basecol.r,
   if color.g ≥ 0 then color.g else basecol.g,
   if color.b ≥ 0 then color.b else basecol.b,
   if color.a ≥ 0 then color.a else basecol.a⟩

/-- Body of `Renderer::setColor(ColorMode, const float color[4], const shaderinfo_t *)`:
the returned colour and the calls issued. -/
def Renderer.setColor {CS : Type} (env : ColorEnv CS) (build : Build) (self : Renderer CS)
    (colormode : ColorMode) (color : Color4f) (shaderinfo : Option shaderinfo_t) :
    Color4f × List GLCall :=
  let found := self.getColor colormode env.uninit
  if found.1 then
    let basecol :=
      if colormode = ColorMode.BACKGROUND then overrideChannels color found.2
      else if colormode ≠ ColorMode.HIGHLIGHT then overrideChannels color found.2
      else found.2
    (basecol, self.setColor_color env build basecol shaderinfo)
  else
    (found.2, [])

/-- Body of `Renderer::setColor(ColorMode, const shaderinfo_t *)`; the value its inner
call returns is kept next to the calls. -/
def Renderer.setColor_mode {CS : Type} (env : ColorEnv CS) (build : Build)
    (self : Renderer CS) (colormode : ColorMode) (shaderinfo : Option shaderinfo_t) :
    Color4f × List GLCall :=
  self.setColor env build colormode ⟨-1, -1, -1, -1⟩ shaderinfo

/-! ## `renderer.cc`: mesh rasteriser -/

/-- Values the drawing functions take from outside the file: the two `csgmode_e`
constants they name and the `sqrt` of the C library. -/
structure DrawEnv where
  CSGMODE_NONE : Nat
  CSGMODE_DIFFERENCE_FLAG : Nat
  sqrt : Rat → Rat

/-- Eigen `Transform3d`, by its 4 x 4 matrix. -/
abbrev Transform3d := Matrix (Fin 4) (Fin 4) Rat

/-- Closed 2D vertex loop `Outline2d`. -/
structure Outline2d where
  vertices : List Vector2d
  deriving DecidableEq, Repr

/-- Members of `PolySet` read by the renderer: `getDimension()`, the vertex array filled
by `getVertices`, `getIndexedTriangles()`, `getPolygon().outlines()`, `getPolygons()`. -/
structure PolySet where
  dimension : Nat
  vertices : List Vector3d
  indexedTriangles : List (Nat × Nat × Nat)
  outlines : List Outline2d
  polygons : List (List Vector3d)
  deriving DecidableEq, Repr

/-- Geometry handle: either a `PolySet` or anything for which the dynamic cast yields
null (another geometry class, or a null pointer). -/
inductive Geometry
  | polySet (ps : PolySet)
  | other
  deriving DecidableEq, Repr

/-- Outcome of a drawing function: the calls issued and whether it returned; `returned`
is false when an `assert` stopped the process after the calls. -/
structure Run where
  calls : List GLCall
  returned : Bool
  deriving DecidableEq, Repr

/-- Element `vertices[i]`; the zero vector stands for a read outside the array, which
the source leaves undefined. -/
def vertexAt (vertices : List Vector3d) (i : Nat) : Vector3d :=
  vertices.getD i ⟨0, 0, 0⟩

/-- Element `o.vertices[i]` of an outline. -/
def outlineAt (vertices : List Vector2d) (i : Nat) : Vector2d :=
  vertices.getD i ⟨0, 0⟩

/-- Body of `draw_triangle` (compiled under `ENABLE_OPENCSG`).  The `switch` is on
`shaderinfo ? shaderinfo->type : NONE`, so its case `CSG_RENDERING` has a descriptor;
every other tag, and the null descriptor, take the `default` label. -/
def draw_triangle (shaderinfo : Option shaderinfo_t) (p0 p1 p2 : Vector3d)
    (e0f e1f e2f z : Rat) (mirror : Bool) : List GLCall :=
  let plain : List GLCall :=
    [GLCall.glVertex3d p0.x p0.y (p0.z + z)] ++
    (if !mirror then [GLCall.glVertex3d p1.x p1.y (p1.z + z)] else []) ++
    [GLCall.glVertex3d p2.x p2.y (p2.z + z)] ++
    (if mirror then [GLCall.glVertex3d p1.x p1.y (p1.z + z)] else [])
  match shaderinfo with
  | none => plain
  | some si =>
    if si.type = shader_type_t.CSG_RENDERING then
      let d := si.csg_rendering
      [GLCall.glVertexAttrib3d d.trig e0f e1f e2f,
       GLCall.glVertexAttrib3d d.point_b p1.x p1.y (p1.z + z),
       GLCall.glVertexAttrib3d d.point_c p2.x p2.y (p2.z + z),
       GLCall.glVertexAttrib3d d.mask 0 1 0,
       GLCall.glVertex3d p0.x p0.y (p0.z + z)] ++
      (if !mirror then
        [GLCall.glVertexAttrib3d d.trig e0f e1f e2f,
         GLCall.glVertexAttrib3d d.point_b p0.x p0.y (p0.z + z),
         GLCall.glVertexAttrib3d d.point_c p2.x p2.y (p2.z + z),
         GLCall.glVertexAttrib3d d.mask 0 0 1,
         GLCall.glVertex3d p1.x p1.y (p1.z + z)]
       else []) ++
      [GLCall.glVertexAttrib3d d.trig e0f e1f e2f,
       GLCall.glVertexAttrib3d d.point_b p0.x p0.y (p0.z + z),
       GLCall.glVertexAttrib3d d.point_c p1.x p1.y (p1.z + z),
       GLCall.glVertexAttrib3d d.mask 1 0 0,
       GLCall.glVertex3d p2.x p2.y (p2.z + z)] ++
      (if mirror then
        [GLCall.glVertexAttrib3d d.trig e0f e1f e2f,
         GLCall.glVertexAttrib3d d.point_b p0.x p0.y (p0.z + z),
         GLCall.glVertexAttrib3d d.point_c p2.x p2.y (p2.z + z),
         GLCall.glVertexAttrib3d d.mask 0 0 1,
         GLCall.glVertex3d p1.x p1.y (p1.z + z)]
       else [])
    else plain

/-- Body of `draw_tri`. -/
def draw_tri (p0 p1 p2 : Vector3d) (z : Rat) (mirror : Bool) : List GLCall :=
  [GLCall.glVertex3d p0.x p0.y (p0.z + z)] ++
  (if !mirror then [GLCall.glVertex3d p1.x p1.y (p1.z + z)] else []) ++
  [GLCall.glVertex3d p2.x p2.y (p2.z + z)] ++
  (if mirror then [GLCall.glVertex3d p1.x p1.y (p1.z + z)] else [])

/-- Body of `gl_draw_triangle`. -/
def gl_draw_triangle (env : DrawEnv) (build : Build) (shaderinfo : Option shaderinfo_t)
    (p0 p1 p2 : Vector3d) (e0 e1 e2 : Bool) (z : Rat) (mirrored : Bool) : List GLCall :=
  let ax := p1.x - p0.x
  let bx := p1.x - p2.x
  let ay := p1.y - p0.y
  let by_ := p1.y - p2.y
  let az := p1.z - p0.z
  let bz := p1.z - p2.z
  let nx := ay * bz - az * by_
  let ny := az * bx - ax * bz
  let nz := ax * by_ - ay * bx
  let nl := env.sqrt (nx * nx + ny * ny + nz * nz)
  [GLCall.glNormal3d (nx / nl) (ny / nl) (nz / nl)] ++
  (if build.ENABLE_OPENCSG && shaderinfo.isSome then
    let e0f : Rat := if e0 then 2 else -1
    let e1f : Rat := if e1 then 2 else -1
    let e2f : Rat := if e2 then 2 else -1
    draw_triangle shaderinfo p0 p1 p2 e0f e1f e2f z mirrored
  else
    draw_tri p0 p1 p2 z mirrored)

/-- Thickness of an extruded 2D object,
`1 + ((csgmode & CSGMODE_DIFFERENCE_FLAG) ? 0.1 : 0)`. -/
def zbaseOf (env : DrawEnv) (csgmode : Nat) : Rat :=
  1 + (if csgmode &&& env.CSGMODE_DIFFERENCE_FLAG ≠ 0 then 1 / 10 else 0)

/-- Values of `z` at which the body of `for (double z = z0; z < zbase; z += zbase)`
runs, in order, starting from `z`; `none` when the loop has not ended after `fuel`
passes. -/
def zLoop (zbase : Rat) : Nat → Rat → Option (List Rat)
  | 0, z => if z < zbase then none else some []
  | fuel + 1, z =>
    if z < zbase then (zLoop zbase fuel (z + zbase)).map (fun zs => z :: zs) else some []

/-- Calls of a loop whose passes may each fail to end: their concatenation, or `none`
as soon as one pass is `none`. -/
def concatRuns : List (Option (List GLCall)) → Option (List GLCall)
  | [] => some []
  | none :: _ => none
  | some a :: rest => (concatRuns rest).map (fun r => a ++ r)

/-- The `glUniform1f` calls at the head of `render_surface` (under `ENABLE_OPENCSG`). -/
def surfaceUniforms (build : Build) (shaderinfo : Option shaderinfo_t) : List GLCall :=
  if build.ENABLE_OPENCSG then
    match shaderinfo with
    | some si =>
      if si.type = shader_type_t.CSG_RENDERING then
        [GLCall.glUniform1f si.csg_rendering.xscale si.vp_size_x,
         GLCall.glUniform1f si.csg_rendering.yscale si.vp_size_y]
      else []
    | none => []
  else []

/-- The cap pass of `render_surface` at one value of `z`: the inner loop over the
indexed triangles. -/
def capPass (env : DrawEnv) (build : Build) (shaderinfo : Option shaderinfo_t)
    (ps : PolySet) (mirrored : Bool) (z : Rat) : List GLCall :=
  ps.indexedTriangles.flatMap fun t =>
    if z < 0 then
      gl_draw_triangle env build shaderinfo (vertexAt ps.vertices t.1)
        (vertexAt ps.vertices t.2.2) (vertexAt ps.vertices t.2.1) true true true z mirrored
    else
      gl_draw_triangle env build shaderinfo (vertexAt ps.vertices t.1)
        (vertexAt ps.vertices t.2.1) (vertexAt ps.vertices t.2.2) true true true z mirrored

/-- The side pass of `render_surface`: for every outline, `j` from 1 to its size, two
triangles between the low and the high copy of the edge from vertex `j-1` to vertex
`j % size`. -/
def sidePass (env : DrawEnv) (build : Build) (shaderinfo : Option shaderinfo_t)
    (ps : PolySet) (mirrored : Bool) (zbase : Rat) : List GLCall :=
  ps.outlines.flatMap fun o =>
    (List.range o.vertices.length).flatMap fun i =>
      let j := i + 1
      let a := outlineAt o.vertices (j - 1)
      let b := outlineAt o.vertices (j % o.vertices.length)
      let p1 : Vector3d := ⟨a.x, a.y, -zbase / 2⟩
      let p2 : Vector3d := ⟨a.x, a.y, zbase / 2⟩
      let p3 : Vector3d := ⟨b.x, b.y, -zbase / 2⟩
      let p4 : Vector3d := ⟨b.x, b.y, zbase / 2⟩
      gl_draw_triangle env build shaderinfo p2 p1 p3 true true false 0 mirrored ++
      gl_draw_triangle env build shaderinfo p2 p3 p4 false true true 0 mirrored

/-- Body of `Renderer::render_surface`.  `none` when the cap loop has not ended within
`fuel` passes. -/
def render_surface (env : DrawEnv) (build : Build) (fuel : Nat) (geom : Geometry)
    (csgmode : Nat) (m : Transform3d) (shaderinfo : Option shaderinfo_t) : Option Run :=
  let mirrored : Bool := decide (m.det < 0)
  match geom with
  | Geometry.other => some ⟨[], true⟩
  | Geometry.polySet ps =>
    let head := surfaceUniforms build shaderinfo
    if ps.dimension = 2 then
      let zbase := zbaseOf env csgmode
      match zLoop zbase fuel (-zbase / 2) with
      | none => none
      | some zs =>
        let caps := zs.flatMap fun z => capPass env build shaderinfo ps mirrored z
        if ps.outlines.length > 0 then
          some ⟨head ++ [GLCall.glBegin GLPrim.TRIANGLES] ++ caps ++
            sidePass env build shaderinfo ps mirrored zbase ++ [GLCall.glEnd], true⟩
        else if build.NDEBUG then
          some ⟨head ++ [GLCall.glBegin GLPrim.TRIANGLES] ++ caps ++ [GLCall.glEnd], true⟩
        else
          some ⟨head ++ [GLCall.glBegin GLPrim.TRIANGLES] ++ caps, false⟩
    else if ps.dimension = 3 then
      some ⟨head ++ ps.indexedTriangles.flatMap (fun t =>
        [GLCall.glBegin GLPrim.TRIANGLES] ++
        gl_draw_triangle env build shaderinfo (vertexAt ps.vertices t.1)
          (vertexAt ps.vertices t.2.1) (vertexAt ps.vertices t.2.2) true true true 0 mirrored ++
        [GLCall.glEnd]), true⟩
    else if build.NDEBUG then some ⟨head, true⟩
    else some ⟨head, false⟩

/-- Edge pass of `render_edges` for one outline of an extruded 2D object: `none` when
the loop over `z` has not ended within `fuel` passes. -/
def outlineEdges (fuel : Nat) (zbase : Rat) (o : Outline2d) : Option (List GLCall) :=
  match zLoop zbase fuel (-zbase / 2) with
  | none => none
  | some zs =>
    some ((zs.flatMap fun z =>
        [GLCall.glBegin GLPrim.LINE_LOOP] ++
        o.vertices.map (fun v => GLCall.glVertex3d v.x v.y z) ++ [GLCall.glEnd]) ++
      [GLCall.glBegin GLPrim.LINES] ++
      o.vertices.flatMap (fun v =>
        [GLCall.glVertex3d v.x v.y (-zbase / 2), GLCall.glVertex3d v.x v.y (zbase / 2)]) ++
      [GLCall.glEnd])

/-- Body of `Renderer::render_edges`.  `none` when a loop over `z` has not ended within
`fuel` passes. -/
def render_edges (env : DrawEnv) (build : Build) (fuel : Nat) (geom : Geometry)
    (csgmode : Nat) : Option Run :=
  match geom with
  | Geometry.other => some ⟨[], true⟩
  | Geometry.polySet ps =>
    if ps.dimension = 2 then
      if csgmode = env.CSGMODE_NONE then
        some ⟨[GLCall.glDisable GLCap.LIGHTING] ++
          ps.outlines.flatMap (fun o =>
            [GLCall.glBegin GLPrim.LINE_LOOP] ++
            o.vertices.map (fun v => GLCall.glVertex3d v.x v.y 0) ++ [GLCall.glEnd]) ++
          [GLCall.glEnable GLCap.LIGHTING], true⟩
      else
        let zbase := zbaseOf env csgmode
        match concatRuns (ps.outlines.map (outlineEdges fuel zbase)) with
        | none => none
        | some body =>
          some ⟨[GLCall.glDisable GLCap.LIGHTING] ++ body ++
            [GLCall.glEnable GLCap.LIGHTING], true⟩
    else if ps.dimension = 3 then
      some ⟨[GLCall.glDisable GLCap.LIGHTING] ++
        ps.polygons.flatMap (fun poly =>
          [GLCall.glBegin GLPrim.LINE_LOOP] ++
          poly.map (fun p => GLCall.glVertex3d p.x p.y p.z) ++ [GLCall.glEnd]) ++
        [GLCall.glEnable GLCap.LIGHTING], true⟩
    else if build.NDEBUG then
      some ⟨[GLCall.glDisable GLCap.LIGHTING, GLCall.glEnable GLCap.LIGHTING], true⟩
    else
      some ⟨[GLCall.glDisable GLCap.LIGHTING], false⟩

/-- Whether `GL_LIGHTING` is enabled after a list of calls, given the flag before. -/
def lightingAfter (prior : Bool) : List GLCall → Bool
  | [] => prior
  | GLCall.glEnable GLCap.LIGHTING :: cs => lightingAfter true cs
  | GLCall.glDisable GLCap.LIGHTING :: cs => lightingAfter false cs
  | _ :: cs => lightingAfter prior cs

/-- The `glVertex3d` calls of a log, as positions in order of emission. -/
def vertexCalls (calls : List GLCall) : List Vector3d :=
  calls.filterMap fun c => match c with
    | GLCall.glVertex3d x y z => some ⟨x, y, z⟩
    | _ => none


/-! ## Concrete inputs used by the examples below -/

/-- A 640 x 480 view. -/
def view640x480 : GLView :=
  { cam := { pixel_width := 640, pixel_height := 480, object_trans := ⟨0, 0, 0⟩ },
    has_shaders := true }

/-- A selector on the 640 x 480 view whose framebuffer is not allocated yet. -/
def selector640x480 : MouseSelector :=
  { view := view640x480, framebuffer := none,
    shaderinfo := ⟨1, shader_type_t.SELECT_RENDERING, ⟨0, 0, 0, 0, 0, 0, 0, 0⟩, ⟨0⟩, 0, 0⟩ }

/-- A 100 x 100 view. -/
def view100 : GLView :=
  { cam := { pixel_width := 100, pixel_height := 100, object_trans := ⟨0, 0, 0⟩ },
    has_shaders := true }

/-- A selector on the 100 x 100 view with its framebuffer allocated. -/
def selector100 : MouseSelector :=
  { view := view100, framebuffer := some ⟨100, 100⟩,
    shaderinfo := ⟨1, shader_type_t.SELECT_RENDERING, ⟨0, 0, 0, 0, 0, 0, 0, 0⟩, ⟨0⟩, 0, 0⟩ }

/-- A colour environment with a single scheme: channels are stored divided by 255,
a default-constructed colour reads as all `-1`, and the scheme is yellow faces, green
back faces, black edges and a white background. -/
def exampleColorEnv : ColorEnv Unit :=
  { rgba := fun r g b a => ⟨(r : Rat) / 255, (g : Rat) / 255, (b : Rat) / 255, (a : Rat) / 255⟩,
    uninit := ⟨-1, -1, -1, -1⟩,
    getColor := fun _ key =>
      match key with
      | RenderColor.BACKGROUND_COLOR => ⟨1, 1, 1, 1⟩
      | RenderColor.OPENCSG_FACE_FRONT_COLOR => ⟨1, 1, 0, 1⟩
      | RenderColor.OPENCSG_FACE_BACK_COLOR => ⟨0, 1, 0, 1⟩
      | RenderColor.CGAL_EDGE_FRONT_COLOR => ⟨0, 0, 0, 1⟩
      | RenderColor.CGAL_EDGE_BACK_COLOR => ⟨0, 0, 0, 1⟩,
    defaultColorScheme := () }

/-- A build with OpenCSG shading and assertions compiled in. -/
def exampleBuild : Build := { ENABLE_OPENCSG := true, NDEBUG := false }


/-! ## Reference description of the surface pass -/

/-- Positions of a triangle `(p0, p1, p2)` raised by `z`, in the order `p0, p1, p2`, or
`p0, p2, p1` when `mirrored`. -/
def emitOrder (mirrored : Bool) (p0 p1 p2 : Vector3d) (z : Rat) : List Vector3d :=
  if mirrored then
    [⟨p0.x, p0.y, p0.z + z⟩, ⟨p2.x, p2.y, p2.z + z⟩, ⟨p1.x, p1.y, p1.z + z⟩]
  else
    [⟨p0.x, p0.y, p0.z + z⟩, ⟨p1.x, p1.y, p1.z + z⟩, ⟨p2.x, p2.y, p2.z + z⟩]

/-- One triangle handed to `gl_draw_triangle`: its corners and the z offset. -/
structure TriangleJob where
  p0 : Vector3d
  p1 : Vector3d
  p2 : Vector3d
  z : Rat
  deriving DecidableEq, Repr

/-- Triangles of one cap of an extruded 2D mesh at height `z`: the indexed triangles,
with the last two corners exchanged on the lower cap. -/
def capJobs (ps : PolySet) (z : Rat) : List TriangleJob :=
  ps.indexedTriangles.flatMap fun t =>
    if z < 0 then
      [⟨vertexAt ps.vertices t.1, vertexAt ps.vertices t.2.2, vertexAt ps.vertices t.2.1, z⟩]
    else
      [⟨vertexAt ps.vertices t.1, vertexAt ps.vertices t.2.1, vertexAt ps.vertices t.2.2, z⟩]

/-- Triangles of the side walls of an extruded 2D mesh of thickness `zbase`. -/
def sideJobs (ps : PolySet) (zbase : Rat) : List TriangleJob :=
  ps.outlines.flatMap fun o =>
    (List.range o.vertices.length).flatMap fun i =>
      let j := i + 1
      let a := outlineAt o.vertices (j - 1)
      let b := outlineAt o.vertices (j % o.vertices.length)
      let p1 : Vector3d := ⟨a.x, a.y, -zbase / 2⟩
      let p2 : Vector3d := ⟨a.x, a.y, zbase / 2⟩
      let p3 : Vector3d := ⟨b.x, b.y, -zbase / 2⟩
      let p4 : Vector3d := ⟨b.x, b.y, zbase / 2⟩
      [⟨p2, p1, p3, 0⟩, ⟨p2, p3, p4, 0⟩]

/-- All triangles of a surface pass, in drawing order; it depends neither on the
transform nor on the shader descriptor.  `none` when the cap loop has not ended within
`fuel` passes. -/
def surfaceJobs (env : DrawEnv) (fuel : Nat) (geom : Geometry) (csgmode : Nat) :
    Option (List TriangleJob) :=
  match geom with
  | Geometry.other => some []
  | Geometry.polySet ps =>
    if ps.dimension = 2 then
      (zLoop (zbaseOf env csgmode) fuel (-(zbaseOf env csgmode) / 2)).map fun zs =>
        zs.flatMap (capJobs ps) ++ sideJobs ps (zbaseOf env csgmode)
    else if ps.dimension = 3 then
      some (ps.indexedTriangles.flatMap fun t =>
        [⟨vertexAt ps.vertices t.1, vertexAt ps.vertices t.2.1, vertexAt ps.vertices t.2.2, 0⟩])
    else some []

/-- Whether a call enables or disables `GL_LIGHTING`. -/
def touchesLighting : GLCall → Bool
  | GLCall.glEnable GLCap.LIGHTING => true
  | GLCall.glDisable GLCap.LIGHTING => true
  | _ => false

/-- Drawing constants for the examples: mode `NONE` is 0 and the difference flag is the
bit `0x10`; the stand-in for `sqrt` only feeds `glNormal3d`. -/
def exampleDrawEnv : DrawEnv :=
  { CSGMODE_NONE := 0, CSGMODE_DIFFERENCE_FLAG := 16, sqrt := fun _ => 1 }

/-- A 3D mesh with a single triangular face. -/
def oneFace : PolySet :=
  { dimension := 3,
    vertices := [⟨0, 0, 0⟩, ⟨1, 0, 0⟩, ⟨0, 1, 0⟩],
    indexedTriangles := [(0, 1, 2)],
    outlines := [],
    polygons := [[⟨0, 0, 0⟩, ⟨1, 0, 0⟩, ⟨0, 1, 0⟩]] }


/-! ## Theorems: picking -/

/-- A byte placed above `k` low bits: bitwise or is addition. -/
theorem or_shiftLeft_eq_add (a b k : Nat) (h : a < 2 ^ k) : a ||| (b <<< k) = a + b * 2 ^ k := by
  rw [Nat.shiftLeft_eq, Nat.or_comm, Nat.mul_comm b, ← Nat.mul_add_lt_is_or h b]
  omega

/-- Decoding three bytes gives `r + 256 g + 65536 b`. -/
theorem decodeIndex_bytes (r g b : Nat) (hr : r < 256) (hg : g < 256) (hb : b < 256) :
    decodeIndex (r, g, b) = ((r + g * 256 + b * 65536 : Nat) : Int) := by
  have h8 : g <<< 8 = g * 256 := by rw [Nat.shiftLeft_eq]
  have h16 : b <<< 16 = b * 65536 := by rw [Nat.shiftLeft_eq]
  have e1 : r % 4294967296 = r := Nat.mod_eq_of_lt (by omega)
  have e2 : (g <<< 8) % 4294967296 = g <<< 8 := Nat.mod_eq_of_lt (by omega)
  have e3 : (b <<< 16) % 4294967296 = b <<< 16 := Nat.mod_eq_of_lt (by omega)
  have o1 : r ||| (g <<< 8) = r + g * 256 := by
    have := or_shiftLeft_eq_add r g 8 (by omega)
    simpa using this
  have o2 : (r + g * 256) ||| (b <<< 16) = r + g * 256 + b * 65536 := by
    have := or_shiftLeft_eq_add (r + g * 256) b 16 (by omega)
    simpa using this
  unfold decodeIndex wrapInt32
  simp only [e1, e2, e3, o1, o2]
  omega

/-- C1: every identifier `i` in `[0, 16777215]`, encoded as the byte triple
`(i & 0xff, (i >> 8) & 0xff, (i >> 16) & 0xff)` of the picking vertex shader and decoded
as `MouseSelector::select` does, `r | (g << 8) | (b << 16)`, comes back as `i`. -/
theorem identifier_round_trip (i : Nat) (h : i ≤ 16777215) :
    decodeIndex (vs_idcolor i) = (i : Int) := by
  have m : ∀ x : Nat, x &&& 0xff = x % 256 := fun x => Nat.and_pow_two_sub_one_eq_mod x 8
  unfold vs_idcolor
  rw [m, m, m]
  rw [decodeIndex_bytes _ _ _ (Nat.mod_lt _ (by decide)) (Nat.mod_lt _ (by decide))
    (Nat.mod_lt _ (by decide))]
  simp only [Nat.shiftRight_eq_div_pow]
  norm_num
  omega

/-- C1 at the largest identifier, `0xffffff`. -/
theorem identifier_round_trip_witness :
    (16777215 : Nat) ≤ 16777215 ∧ decodeIndex (vs_idcolor 16777215) = ((16777215 : Nat) : Int) :=
  ⟨Nat.le_refl _, identifier_round_trip 16777215 (Nat.le_refl _)⟩

/-- C2: with a viewport of width `W` and height `H` (both representable as `int`) and a
pick coordinate `(x, y)` in top-left origin with `x < 0`, `x > W`, `y < 0` or `y > H`,
`MouseSelector::select` returns `-1` and issues no call at all: no framebuffer bind or
release and no other GPU call.  It holds for either declared type of the camera
dimensions and with the flipped `y` wrapped to 32 bits. -/
theorem select_out_of_bounds (k : DimType) (self : MouseSelector)
    (draw : shaderinfo_t → List GLCall) (pixels : Int → Int → Nat × Nat × Nat) (x y : Int)
    (hW : 0 ≤ self.view.cam.pixel_width ∧ self.view.cam.pixel_width ≤ 2147483647)
    (hH : 0 ≤ self.view.cam.pixel_height ∧ self.view.cam.pixel_height ≤ 2147483647)
    (hx : -2147483648 ≤ x ∧ x ≤ 2147483647) (hy : -2147483648 ≤ y ∧ y ≤ 2147483647)
    (hout : x < 0 ∨ x > self.view.cam.pixel_width ∨ y < 0 ∨ y > self.view.cam.pixel_height) :
    MouseSelector.select k self draw pixels x y = some (-1, []) := by
  have hb : outOfBounds k self.view.cam x (wrapInt32 (self.view.cam.pixel_height - y)) = true := by
    cases k <;>
      simp only [outOfBounds, gtDim, toUInt32, wrapInt32, Bool.or_eq_true, decide_eq_true_eq] <;>
      omega
  simp only [MouseSelector.select, hb, if_true]

/-- C2 on the 640 x 480 view: a pick at `(700, 10)` is right of the viewport. -/
theorem select_out_of_bounds_witness :
    MouseSelector.select DimType.unsigned selector640x480 (fun _ => []) (fun _ _ => (0, 0, 0))
      700 10 = some (-1, []) :=
  select_out_of_bounds DimType.unsigned selector640x480 (fun _ => []) (fun _ _ => (0, 0, 0))
    700 10 (by decide) (by decide) (by decide) (by decide) (Or.inr (Or.inl (by decide)))

/-- C3 on the code: two `reset` calls in a row on the same 640 x 480 view.  The first
allocates a 640 x 640 framebuffer (the width is passed for both sizes); the second finds
its height different from 480 and allocates again, so the pair allocates twice. -/
theorem reset_twice_allocates_twice :
    (selector640x480.reset view640x480).1.framebuffer = some ⟨640, 640⟩ ∧
    allocations (selector640x480.reset view640x480).2 = 1 ∧
    allocations ((selector640x480.reset view640x480).1.reset view640x480).2 = 1 ∧
    allocations ((selector640x480.reset view640x480).2 ++
      ((selector640x480.reset view640x480).1.reset view640x480).2) = 2 := by
  decide

/-- In a square viewport the second `reset` issues no call and keeps the state. -/
theorem reset_twice_square (self : MouseSelector) (view : GLView)
    (hsq : view.cam.pixel_height = view.cam.pixel_width) :
    (self.reset view).1.reset view = ((self.reset view).1, []) := by
  unfold MouseSelector.reset MouseSelector.setup_framebuffer
  cases hfb : self.framebuffer with
  | none => simp [hsq]
  | some fb =>
    by_cases hs : (fb.width != view.cam.pixel_width || fb.height != view.cam.pixel_width) = true
    · simp [hsq, hs]
    · simp [hsq, hs, hfb]

/-- Whenever width and height differ, the second `reset` allocates again.  Every
framebuffer the selector creates is square, which is the hypothesis on the state. -/
theorem reset_twice_nonsquare (self : MouseSelector) (view : GLView)
    (hinv : ∀ fb, self.framebuffer = some fb → fb.height = fb.width)
    (hne : view.cam.pixel_height ≠ view.cam.pixel_width) :
    allocations ((self.reset view).1.reset view).2 = 1 := by
  unfold MouseSelector.reset MouseSelector.setup_framebuffer
  cases hfb : self.framebuffer with
  | none => simp [allocations, Ne.symm hne]
  | some fb =>
    by_cases hs : (fb.width != view.cam.pixel_width || fb.height != view.cam.pixel_height) = true
    · simp [allocations, hs, Ne.symm hne]
    · exfalso
      have hq := hinv fb hfb
      simp only [Bool.or_eq_true, bne_iff_ne, ne_eq, not_or, Decidable.not_not] at hs
      exact hne (by rw [← hs.2, ← hs.1, hq])

/-- C10 on the code: a pick at the top-left pixel `(0, 0)` of a 100 x 100 viewport
passes the bounds test and reads the pixel `(0, 100)`, whose row `100` is not below the
height `100`; likewise a pick at `(100, 50)` passes and reads column `100`. -/
theorem select_reads_outside_grid (k : DimType) :
    MouseSelector.select k selector100 (fun _ => []) (fun _ _ => (0, 0, 0)) 0 0 =
      some (0,
        [GLCall.fboBind, GLCall.glGetError, GLCall.glClearColor 0 0 0 1, GLCall.glClear,
         GLCall.glViewport 0 0 100 100, GLCall.setupCamera, GLCall.glTranslated 0 0 0,
         GLCall.glDisable GLCap.LIGHTING, GLCall.glDepthFunc, GLCall.glCullFace,
         GLCall.glDisable GLCap.CULL_FACE, GLCall.glEnable GLCap.DEPTH_TEST,
         GLCall.glGetError, GLCall.glReadPixels 0 100 1 1, GLCall.glGetError,
         GLCall.fboRelease]) ∧
    ¬ ((100 : Int) < selector100.view.cam.pixel_height) ∧
    MouseSelector.select k selector100 (fun _ => []) (fun _ _ => (0, 0, 0)) 100 50 =
      some (0,
        [GLCall.fboBind, GLCall.glGetError, GLCall.glClearColor 0 0 0 1, GLCall.glClear,
         GLCall.glViewport 0 0 100 100, GLCall.setupCamera, GLCall.glTranslated 0 0 0,
         GLCall.glDisable GLCap.LIGHTING, GLCall.glDepthFunc, GLCall.glCullFace,
         GLCall.glDisable GLCap.CULL_FACE, GLCall.glEnable GLCap.DEPTH_TEST,
         GLCall.glGetError, GLCall.glReadPixels 100 50 1 1, GLCall.glGetError,
         GLCall.fboRelease]) ∧
    ¬ ((100 : Int) < selector100.view.cam.pixel_width) := by
  cases k <;>
    simp [outOfBounds, gtDim, toUInt32, wrapInt32, view100, selector100, MouseSelector.select,
      decodeIndex]

/-! ## Theorems: colour policy -/

/-- An override with no negative channel replaces every channel. -/
theorem overrideChannels_of_nonneg (color basecol : Color4f)
    (hc : 0 ≤ color.r ∧ 0 ≤ color.g ∧ 0 ≤ color.b ∧ 0 ≤ color.a) :
    overrideChannels color basecol = color := by
  obtain ⟨h0, h1, h2, h3⟩ := hc
  simp [overrideChannels, h0, h1, h2, h3]

/-- The all-unset override `(-1, -1, -1, -1)` replaces no channel. -/
theorem overrideChannels_unset (basecol : Color4f) :
    overrideChannels ⟨-1, -1, -1, -1⟩ basecol = basecol := by
  have h : ¬ ((1 : Rat) ≤ 0) := by norm_num
  simp [overrideChannels, h]

/-- C4 fails as stated: on a freshly constructed renderer the override `(0, 0, 0, 1)`,
all of whose channels are `>= 0`, is not returned for the role `HIGHLIGHT` (the table
colour `(255, 81, 81, 128)` is), nor for the role `NONE`, which resolves to no colour. -/
theorem setColor_override_not_returned :
    ((Renderer.new exampleColorEnv).setColor exampleColorEnv exampleBuild
        ColorMode.HIGHLIGHT ⟨0, 0, 0, 1⟩ none).1 = exampleColorEnv.rgba 255 81 81 128 ∧
    ((Renderer.new exampleColorEnv).setColor exampleColorEnv exampleBuild
        ColorMode.HIGHLIGHT ⟨0, 0, 0, 1⟩ none).1 ≠ ⟨0, 0, 0, 1⟩ ∧
    ((Renderer.new exampleColorEnv).setColor exampleColorEnv exampleBuild
        ColorMode.NONE ⟨0, 0, 0, 1⟩ none).1 ≠ ⟨0, 0, 0, 1⟩ := by
  refine ⟨?_, ?_, ?_⟩
  · simp [Renderer.setColor, Renderer.getColor, Renderer.new, Renderer.setColorScheme, mapSet]
  · simp [Renderer.setColor, Renderer.getColor, Renderer.new, Renderer.setColorScheme, mapSet,
      exampleColorEnv]
  · simp [Renderer.setColor, Renderer.getColor, exampleColorEnv]

/-- C4, amended: for a role that resolves to a colour in the table and an override whose
four channels are all `>= 0`, `setColor` returns the override unchanged when the role is
not `HIGHLIGHT`, and the resolved table colour when the role is `HIGHLIGHT`. -/
theorem setColor_full_override {CS : Type} (env : ColorEnv CS) (build : Build)
    (self : Renderer CS) (colormode : ColorMode) (color : Color4f)
    (shaderinfo : Option shaderinfo_t)
    (hres : (self.getColor colormode env.uninit).1 = true)
    (hc : 0 ≤ color.r ∧ 0 ≤ color.g ∧ 0 ≤ color.b ∧ 0 ≤ color.a) :
    (self.setColor env build colormode color shaderinfo).1 =
      if colormode = ColorMode.HIGHLIGHT then (self.getColor colormode env.uninit).2
      else color := by
  unfold Renderer.setColor
  simp only [hres, if_true]
  by_cases hB : colormode = ColorMode.BACKGROUND
  · subst hB
    simp [overrideChannels_of_nonneg _ _ hc]
  · by_cases hH : colormode = ColorMode.HIGHLIGHT
    · simp [hH]
    · simp [hB, hH, overrideChannels_of_nonneg _ _ hc]

/-- C4, amended, on a fresh renderer: the role `MATERIAL` with override `(0, 0, 0, 1)`. -/
theorem setColor_full_override_witness :
    ((Renderer.new exampleColorEnv).setColor exampleColorEnv exampleBuild
        ColorMode.MATERIAL ⟨0, 0, 0, 1⟩ none).1 =
      if ColorMode.MATERIAL = ColorMode.HIGHLIGHT then
        ((Renderer.new exampleColorEnv).getColor ColorMode.MATERIAL exampleColorEnv.uninit).2
      else ⟨0, 0, 0, 1⟩ :=
  setColor_full_override exampleColorEnv exampleBuild (Renderer.new exampleColorEnv)
    ColorMode.MATERIAL ⟨0, 0, 0, 1⟩ none
    (by simp [Renderer.getColor, Renderer.new, Renderer.setColorScheme, mapSet])
    (by norm_num)

/-- C5: for a role that resolves to a colour in the table, `setColor` with the override
`(-1, -1, -1, -1)` returns exactly the colour `getColor` resolves for the role; the
overload without an override passes that same override. -/
theorem setColor_unset_override {CS : Type} (env : ColorEnv CS) (build : Build)
    (self : Renderer CS) (colormode : ColorMode) (shaderinfo : Option shaderinfo_t)
    (hres : (self.getColor colormode env.uninit).1 = true) :
    (self.setColor env build colormode ⟨-1, -1, -1, -1⟩ shaderinfo).1 =
        (self.getColor colormode env.uninit).2 ∧
    (self.setColor_mode env build colormode shaderinfo).1 =
        (self.getColor colormode env.uninit).2 := by
  have key : (self.setColor env build colormode ⟨-1, -1, -1, -1⟩ shaderinfo).1 =
      (self.getColor colormode env.uninit).2 := by
    unfold Renderer.setColor
    simp only [hres, if_true]
    by_cases hB : colormode = ColorMode.BACKGROUND
    · simp [hB, overrideChannels_unset]
    · by_cases hH : colormode = ColorMode.HIGHLIGHT
      · simp [hH]
      · simp [hB, hH, overrideChannels_unset]
  exact ⟨key, key⟩

/-- C5 on a fresh renderer: the role `BACKGROUND` comes back as `(180, 180, 180, 128)`. -/
theorem setColor_unset_override_witness :
    ((Renderer.new exampleColorEnv).getColor ColorMode.BACKGROUND exampleColorEnv.uninit).1
        = true ∧
    ((Renderer.new exampleColorEnv).setColor exampleColorEnv exampleBuild
        ColorMode.BACKGROUND ⟨-1, -1, -1, -1⟩ none).1 =
      ((Renderer.new exampleColorEnv).getColor ColorMode.BACKGROUND exampleColorEnv.uninit).2 :=
  ⟨by simp [Renderer.getColor, Renderer.new, Renderer.setColorScheme, mapSet],
   (setColor_unset_override exampleColorEnv exampleBuild (Renderer.new exampleColorEnv)
      ColorMode.BACKGROUND none
      (by simp [Renderer.getColor, Renderer.new, Renderer.setColorScheme, mapSet])).1⟩

/-- C6: after construction and two `setColorScheme` calls with any schemes `A` and `B`,
the entries `HIGHLIGHT`, `BACKGROUND`, `HIGHLIGHT_EDGES`, `BACKGROUND_EDGES` hold the
colours built from `(255, 81, 81, 128)`, `(180, 180, 180, 128)`, `(255, 171, 86, 128)`,
`(150, 150, 150, 128)`, which are their values right after construction; and
`setColorScheme` leaves every entry other than `MATERIAL`, `CUTOUT`, `MATERIAL_EDGES`,
`CUTOUT_EDGES`, `EMPTY_SPACE` as it was, in any renderer state. -/
theorem setColorScheme_keeps_highlight_background {CS : Type} (env : ColorEnv CS) (A B : CS) :
    (let r0 := Renderer.new env
     let r2 := (r0.setColorScheme env A).setColorScheme env B
     r0.colormap ColorMode.HIGHLIGHT = some (env.rgba 255 81 81 128) ∧
     r0.colormap ColorMode.BACKGROUND = some (env.rgba 180 180 180 128) ∧
     r0.colormap ColorMode.HIGHLIGHT_EDGES = some (env.rgba 255 171 86 128) ∧
     r0.colormap ColorMode.BACKGROUND_EDGES = some (env.rgba 150 150 150 128) ∧
     r2.colormap ColorMode.HIGHLIGHT = some (env.rgba 255 81 81 128) ∧
     r2.colormap ColorMode.BACKGROUND = some (env.rgba 180 180 180 128) ∧
     r2.colormap ColorMode.HIGHLIGHT_EDGES = some (env.rgba 255 171 86 128) ∧
     r2.colormap ColorMode.BACKGROUND_EDGES = some (env.rgba 150 150 150 128)) ∧
    (∀ (self : Renderer CS) (cs : CS) (k : ColorMode),
      k ≠ ColorMode.MATERIAL → k ≠ ColorMode.CUTOUT → k ≠ ColorMode.MATERIAL_EDGES →
      k ≠ ColorMode.CUTOUT_EDGES → k ≠ ColorMode.EMPTY_SPACE →
      (self.setColorScheme env cs).colormap k = self.colormap k) := by
  refine ⟨?_, ?_⟩
  · simp [Renderer.new, Renderer.setColorScheme, mapSet]
  · intro self cs k h1 h2 h3 h4 h5
    simp [Renderer.setColorScheme, mapSet, h1, h2, h3, h4, h5]


/-! ## Theorems: mesh rasteriser -/

/-- The position filter distributes over concatenation. -/
theorem vertexCalls_append (a b : List GLCall) :
    vertexCalls (a ++ b) = vertexCalls a ++ vertexCalls b := by
  simp [vertexCalls, List.filterMap_append]

/-- The position filter distributes over a loop. -/
theorem vertexCalls_flatMap {α : Type} (l : List α) (f : α → List GLCall) :
    vertexCalls (l.flatMap f) = l.flatMap (fun a => vertexCalls (f a)) := by
  induction l with
  | nil => rfl
  | cons a l ih => simp [List.flatMap_cons, vertexCalls_append, ih]

/-- Positions emitted by `draw_tri`. -/
theorem vertexCalls_draw_tri (p0 p1 p2 : Vector3d) (z : Rat) (mirror : Bool) :
    vertexCalls (draw_tri p0 p1 p2 z mirror) = emitOrder mirror p0 p1 p2 z := by
  cases mirror <;> simp [draw_tri, vertexCalls, emitOrder]

/-- Positions emitted by `draw_triangle`, for every descriptor. -/
theorem vertexCalls_draw_triangle (shaderinfo : Option shaderinfo_t) (p0 p1 p2 : Vector3d)
    (e0f e1f e2f z : Rat) (mirror : Bool) :
    vertexCalls (draw_triangle shaderinfo p0 p1 p2 e0f e1f e2f z mirror) =
      emitOrder mirror p0 p1 p2 z := by
  cases shaderinfo with
  | none => cases mirror <;> simp [draw_triangle, vertexCalls, emitOrder]
  | some si =>
    by_cases hty : si.type = shader_type_t.CSG_RENDERING <;> cases mirror <;>
      simp [draw_triangle, vertexCalls, emitOrder, hty]

/-- Positions emitted by `gl_draw_triangle`. -/
theorem vertexCalls_gl_draw_triangle (env : DrawEnv) (build : Build)
    (shaderinfo : Option shaderinfo_t) (p0 p1 p2 : Vector3d) (e0 e1 e2 : Bool) (z : Rat)
    (mirrored : Bool) :
    vertexCalls (gl_draw_triangle env build shaderinfo p0 p1 p2 e0 e1 e2 z mirrored) =
      emitOrder mirrored p0 p1 p2 z := by
  unfold gl_draw_triangle
  simp only [vertexCalls_append]
  split
  · rw [vertexCalls_draw_triangle]
    simp [vertexCalls]
  · rw [vertexCalls_draw_tri]
    simp [vertexCalls]

/-- The thickness is positive. -/
theorem zbaseOf_pos (env : DrawEnv) (csgmode : Nat) : 0 < zbaseOf env csgmode := by
  unfold zbaseOf
  split <;> norm_num

/-- With a positive step the cap loop ends after exactly the two passes `z = -zbase/2`
and `z = +zbase/2`, whatever fuel beyond two is given. -/
theorem zLoop_two (zb : Rat) (h : 0 < zb) (n : Nat) :
    zLoop zb (n + 2) (-zb / 2) = some [-zb / 2, zb / 2] := by
  have h1 : -zb / 2 < zb := by linarith
  have e2 : -zb / 2 + zb = zb / 2 := by ring
  have h2 : zb / 2 < zb := by linarith
  have h3 : ¬ (zb / 2 + zb < zb) := by linarith
  have last : zLoop zb n (zb / 2 + zb) = some [] := by
    cases n <;> simp [zLoop, h3]
  simp [zLoop, h1, e2, h2, last]

/-- Opening a primitive emits no position. -/
theorem vertexCalls_glBegin (p : GLPrim) : vertexCalls [GLCall.glBegin p] = [] := rfl

/-- Closing a primitive emits no position. -/
theorem vertexCalls_glEnd : vertexCalls [GLCall.glEnd] = [] := rfl

/-- The empty log emits no position. -/
theorem vertexCalls_nil : vertexCalls [] = [] := rfl

/-- The uniforms at the head of the surface pass emit no position. -/
theorem vertexCalls_surfaceUniforms (build : Build) (shaderinfo : Option shaderinfo_t) :
    vertexCalls (surfaceUniforms build shaderinfo) = [] := by
  unfold surfaceUniforms
  cases shaderinfo with
  | none => cases build.ENABLE_OPENCSG <;> simp [vertexCalls]
  | some si =>
    by_cases hty : si.type = shader_type_t.CSG_RENDERING <;>
      cases build.ENABLE_OPENCSG <;> simp [vertexCalls, hty]

/-- Positions emitted by one cap pass. -/
theorem vertexCalls_capPass (env : DrawEnv) (build : Build) (shaderinfo : Option shaderinfo_t)
    (ps : PolySet) (mirrored : Bool) (z : Rat) :
    vertexCalls (capPass env build shaderinfo ps mirrored z) =
      (capJobs ps z).flatMap (fun j => emitOrder mirrored j.p0 j.p1 j.p2 j.z) := by
  unfold capPass capJobs
  rw [vertexCalls_flatMap, List.flatMap_assoc]
  congr 1
  funext t
  by_cases hz : z < 0 <;> simp [hz, vertexCalls_gl_draw_triangle]

/-- Positions emitted by the side pass. -/
theorem vertexCalls_sidePass (env : DrawEnv) (build : Build)
    (shaderinfo : Option shaderinfo_t) (ps : PolySet) (mirrored : Bool) (zbase : Rat) :
    vertexCalls (sidePass env build shaderinfo ps mirrored zbase) =
      (sideJobs ps zbase).flatMap (fun j => emitOrder mirrored j.p0 j.p1 j.p2 j.z) := by
  unfold sidePass sideJobs
  rw [vertexCalls_flatMap, List.flatMap_assoc]
  congr 1
  funext o
  rw [vertexCalls_flatMap, List.flatMap_assoc]
  congr 1
  funext i
  simp [vertexCalls_append, vertexCalls_gl_draw_triangle]

/-- Positions emitted by the whole cap loop. -/
theorem vertexCalls_caps (env : DrawEnv) (build : Build) (shaderinfo : Option shaderinfo_t)
    (ps : PolySet) (mirrored : Bool) (zs : List Rat) :
    vertexCalls (zs.flatMap fun z => capPass env build shaderinfo ps mirrored z) =
      (zs.flatMap (capJobs ps)).flatMap (fun j => emitOrder mirrored j.p0 j.p1 j.p2 j.z) := by
  rw [vertexCalls_flatMap, List.flatMap_assoc]
  congr 1
  funext z
  exact vertexCalls_capPass env build shaderinfo ps mirrored z

/-- With two or more passes of fuel `render_surface` ends. -/
theorem render_surface_isSome (env : DrawEnv) (build : Build) (n : Nat) (geom : Geometry)
    (csgmode : Nat) (m : Transform3d) (shaderinfo : Option shaderinfo_t) :
    (render_surface env build (n + 2) geom csgmode m shaderinfo).isSome = true := by
  unfold render_surface
  cases geom with
  | other => rfl
  | polySet ps =>
    simp only [zLoop_two _ (zbaseOf_pos env csgmode) n]
    split
    · split <;> [rfl; (split <;> rfl)]
    · split <;> [rfl; (split <;> rfl)]

/-- C7: `gl_draw_triangle` emits the positions `p0, p1, p2` (each raised by `z`) when
the mirrored flag is false and `p0, p2, p1` when it is true, for every descriptor (null,
picking, surface) and either OpenCSG setting; and the positions `render_surface` emits
are those of its triangles, each in the order given by the one flag `determinant < 0`,
where the list of triangles does not depend on the transform.  With two or more passes
of fuel `render_surface` ends. -/
theorem mirrored_winding (env : DrawEnv) (build : Build) :
    (∀ (shaderinfo : Option shaderinfo_t) (p0 p1 p2 : Vector3d) (e0 e1 e2 : Bool) (z : Rat),
      vertexCalls (gl_draw_triangle env build shaderinfo p0 p1 p2 e0 e1 e2 z false) =
        [⟨p0.x, p0.y, p0.z + z⟩, ⟨p1.x, p1.y, p1.z + z⟩, ⟨p2.x, p2.y, p2.z + z⟩] ∧
      vertexCalls (gl_draw_triangle env build shaderinfo p0 p1 p2 e0 e1 e2 z true) =
        [⟨p0.x, p0.y, p0.z + z⟩, ⟨p2.x, p2.y, p2.z + z⟩, ⟨p1.x, p1.y, p1.z + z⟩]) ∧
    (∀ (fuel : Nat) (geom : Geometry) (csgmode : Nat) (m : Transform3d)
        (shaderinfo : Option shaderinfo_t),
      (render_surface env build fuel geom csgmode m shaderinfo).map
          (fun run => vertexCalls run.calls) =
        (surfaceJobs env fuel geom csgmode).map (fun jobs =>
          jobs.flatMap fun j => emitOrder (decide (m.det < 0)) j.p0 j.p1 j.p2 j.z)) ∧
    (∀ (n : Nat) (geom : Geometry) (csgmode : Nat) (m : Transform3d)
        (shaderinfo : Option shaderinfo_t),
      (render_surface env build (n + 2) geom csgmode m shaderinfo).isSome = true) := by
  refine ⟨?_, ?_, ?_⟩
  · intro shaderinfo p0 p1 p2 e0 e1 e2 z
    exact ⟨by rw [vertexCalls_gl_draw_triangle]; rfl, by rw [vertexCalls_gl_draw_triangle]; rfl⟩
  · intro fuel geom csgmode m shaderinfo
    unfold render_surface surfaceJobs
    cases geom with
    | other => simp [vertexCalls]
    | polySet ps =>
      by_cases h2 : ps.dimension = 2
      · simp only [h2, if_true]
        cases hz : zLoop (zbaseOf env csgmode) fuel (-(zbaseOf env csgmode) / 2) with
        | none => simp
        | some zs =>
          by_cases ho : ps.outlines.length > 0
          · simp only [ho, if_true, Option.map_some', vertexCalls_append,
              vertexCalls_surfaceUniforms, vertexCalls_caps, vertexCalls_sidePass,
              vertexCalls_glBegin, vertexCalls_glEnd, List.nil_append, List.append_nil,
              List.flatMap_append]
          · have hnil : ps.outlines = [] := by
              cases hps : ps.outlines with
              | nil => rfl
              | cons a l => simp [hps] at ho
            have hside : sideJobs ps (zbaseOf env csgmode) = [] := by
              simp [sideJobs, hnil]
            cases hnd : build.NDEBUG <;>
              simp only [ho, hside, if_true, if_false, Bool.false_eq_true, Option.map_some',
                vertexCalls_append, vertexCalls_surfaceUniforms, vertexCalls_caps,
                vertexCalls_glBegin, vertexCalls_glEnd, List.nil_append, List.append_nil,
                List.flatMap_append, List.flatMap_nil]
      · by_cases h3 : ps.dimension = 3
        · simp only [if_neg h2, if_pos h3]
          simp only [Option.map_some', vertexCalls_append, vertexCalls_surfaceUniforms,
            List.nil_append, vertexCalls_flatMap, List.flatMap_assoc]
          congr 2
          funext t
          simp only [vertexCalls_append, vertexCalls_gl_draw_triangle, vertexCalls_glBegin,
            vertexCalls_glEnd, List.nil_append, List.append_nil, List.flatMap_cons,
            List.flatMap_nil]
        · cases hnd : build.NDEBUG <;>
            simp only [if_neg h2, if_neg h3, if_true, if_false, Bool.false_eq_true,
              Option.map_some', vertexCalls_surfaceUniforms, List.flatMap_nil]
  · intro n geom csgmode m shaderinfo
    exact render_surface_isSome env build n geom csgmode m shaderinfo

/-- The lighting flag after two logs in a row. -/
theorem lightingAfter_append (prior : Bool) (a b : List GLCall) :
    lightingAfter prior (a ++ b) = lightingAfter (lightingAfter prior a) b := by
  induction a generalizing prior with
  | nil => rfl
  | cons c cs ih =>
    cases c <;> try simp [lightingAfter, ih]
    all_goals (rename_i cap; cases cap <;> simp [lightingAfter, ih])

/-- Calls that do not touch lighting leave the flag as it was. -/
theorem lightingAfter_of_untouched (prior : Bool) (l : List GLCall)
    (h : ∀ c ∈ l, touchesLighting c = false) : lightingAfter prior l = prior := by
  induction l with
  | nil => rfl
  | cons c cs ih =>
    have hc := h c (List.mem_cons_self _ _)
    have hcs := ih (fun d hd => h d (List.mem_cons_of_mem _ hd))
    cases c <;> try simp [lightingAfter, hcs]
    all_goals (rename_i cap; cases cap <;> simp_all [lightingAfter, touchesLighting])

/-- With two or more passes of fuel the edge pass of one outline ends, and none of its
calls touches lighting. -/
theorem outlineEdges_untouched (n : Nat) (zb : Rat) (hzb : 0 < zb) (o : Outline2d) :
    ∃ l, outlineEdges (n + 2) zb o = some l ∧ ∀ c ∈ l, touchesLighting c = false := by
  have hrun : outlineEdges (n + 2) zb o = some (([-zb / 2, zb / 2].flatMap fun z =>
        [GLCall.glBegin GLPrim.LINE_LOOP] ++
        o.vertices.map (fun v => GLCall.glVertex3d v.x v.y z) ++ [GLCall.glEnd]) ++
      [GLCall.glBegin GLPrim.LINES] ++
      o.vertices.flatMap (fun v =>
        [GLCall.glVertex3d v.x v.y (-zb / 2), GLCall.glVertex3d v.x v.y (zb / 2)]) ++
      [GLCall.glEnd]) := by
    simp only [outlineEdges, zLoop_two zb hzb n]
  refine ⟨_, hrun, ?_⟩
  intro c hc
  simp only [List.mem_append, List.mem_flatMap, List.mem_map, List.mem_cons,
    List.mem_singleton, List.not_mem_nil, or_false] at hc
  rcases hc with (((⟨z, _, (h | ⟨v, _, h⟩) | h⟩ | h) | ⟨v, _, h | h⟩) | h) <;>
    subst h <;> rfl

/-- A loop all of whose passes end and leave lighting alone does so as a whole. -/
theorem concatRuns_untouched {α : Type} (f : α → Option (List GLCall)) (l : List α)
    (h : ∀ a ∈ l, ∃ r, f a = some r ∧ ∀ c ∈ r, touchesLighting c = false) :
    ∃ body, concatRuns (l.map f) = some body ∧ ∀ c ∈ body, touchesLighting c = false := by
  induction l with
  | nil => exact ⟨[], rfl, by simp⟩
  | cons a as ih =>
    obtain ⟨r, hr, hru⟩ := h a (List.mem_cons_self _ _)
    obtain ⟨body, hb, hbu⟩ := ih (fun b hb => h b (List.mem_cons_of_mem _ hb))
    refine ⟨r ++ body, by simp [concatRuns, hr, hb], ?_⟩
    intro c hc
    rcases List.mem_append.mp hc with h1 | h1
    · exact hru c h1
    · exact hbu c h1

/-- C9 fails as stated: with lighting disabled before the call, `render_edges` on a 3D
mesh with one triangular face returns with lighting enabled. -/
theorem render_edges_enables_lighting :
    render_edges exampleDrawEnv exampleBuild 2 (Geometry.polySet oneFace) 1 =
      some ⟨[GLCall.glDisable GLCap.LIGHTING, GLCall.glBegin GLPrim.LINE_LOOP,
             GLCall.glVertex3d 0 0 0, GLCall.glVertex3d 1 0 0, GLCall.glVertex3d 0 1 0,
             GLCall.glEnd, GLCall.glEnable GLCap.LIGHTING], true⟩ ∧
    lightingAfter false
        [GLCall.glDisable GLCap.LIGHTING, GLCall.glBegin GLPrim.LINE_LOOP,
         GLCall.glVertex3d 0 0 0, GLCall.glVertex3d 1 0 0, GLCall.glVertex3d 0 1 0,
         GLCall.glEnd, GLCall.glEnable GLCap.LIGHTING] = true ∧
    lightingAfter false
        [GLCall.glDisable GLCap.LIGHTING, GLCall.glBegin GLPrim.LINE_LOOP,
         GLCall.glVertex3d 0 0 0, GLCall.glVertex3d 1 0 0, GLCall.glVertex3d 0 1 0,
         GLCall.glEnd, GLCall.glEnable GLCap.LIGHTING] ≠ false := by
  refine ⟨?_, ?_, ?_⟩
  · simp [render_edges, oneFace]
  · simp [lightingAfter]
  · simp [lightingAfter]

/-- C9, amended: for a geometry that is not a polygon mesh `render_edges` issues no call,
so the lighting flag is unchanged.  For a polygon mesh, with two or more passes of fuel
it ends; it returns when the dimension is 2 or 3 (or assertions are compiled out); its
first call disables lighting, no call of the edge drawing touches lighting, and when it
returns its last call enables lighting, so the flag is then enabled whatever it was
before, and equals the prior flag exactly when that was enabled. -/
theorem render_edges_lighting (env : DrawEnv) (build : Build) (n : Nat) (csgmode : Nat)
    (prior : Bool) :
    (∀ fuel : Nat, render_edges env build fuel Geometry.other csgmode = some ⟨[], true⟩ ∧
      lightingAfter prior [] = prior) ∧
    (∀ ps : PolySet, ∃ run body,
      render_edges env build (n + 2) (Geometry.polySet ps) csgmode = some run ∧
      run.returned = (decide (ps.dimension = 2 ∨ ps.dimension = 3) || build.NDEBUG) ∧
      (∀ c ∈ body, touchesLighting c = false) ∧
      run.calls = [GLCall.glDisable GLCap.LIGHTING] ++ body ++
        (if run.returned then [GLCall.glEnable GLCap.LIGHTING] else []) ∧
      lightingAfter prior ([GLCall.glDisable GLCap.LIGHTING] ++ body) = false ∧
      (run.returned = true →
        lightingAfter prior run.calls = true ∧ (lightingAfter prior run.calls = prior ↔
          prior = true))) := by
  refine ⟨fun fuel => ⟨rfl, rfl⟩, ?_⟩
  intro ps
  have fin : ∀ (body : List GLCall) (ret : Bool),
      (∀ c ∈ body, touchesLighting c = false) →
      lightingAfter prior ([GLCall.glDisable GLCap.LIGHTING] ++ body) = false ∧
      (ret = true →
        lightingAfter prior ([GLCall.glDisable GLCap.LIGHTING] ++ body ++
            (if ret then [GLCall.glEnable GLCap.LIGHTING] else [])) = true ∧
        (lightingAfter prior ([GLCall.glDisable GLCap.LIGHTING] ++ body ++
            (if ret then [GLCall.glEnable GLCap.LIGHTING] else [])) = prior ↔
          prior = true)) := by
    intro body ret hb
    have h1 : lightingAfter prior ([GLCall.glDisable GLCap.LIGHTING] ++ body) = false := by
      rw [lightingAfter_append, lightingAfter_of_untouched _ _ hb]
      rfl
    refine ⟨h1, ?_⟩
    intro hret
    have h2 : lightingAfter prior ([GLCall.glDisable GLCap.LIGHTING] ++ body ++
        (if ret then [GLCall.glEnable GLCap.LIGHTING] else [])) = true := by
      rw [lightingAfter_append, h1, hret]
      rfl
    exact ⟨h2, by rw [h2]; exact eq_comm⟩
  by_cases h2 : ps.dimension = 2
  · by_cases hn : csgmode = env.CSGMODE_NONE
    · have hb : ∀ c ∈ ps.outlines.flatMap (fun o =>
          [GLCall.glBegin GLPrim.LINE_LOOP] ++
          o.vertices.map (fun v => GLCall.glVertex3d v.x v.y 0) ++ [GLCall.glEnd]),
          touchesLighting c = false := by
        intro c hc
        simp only [List.mem_append, List.mem_flatMap, List.mem_map, List.mem_cons,
          List.mem_singleton, List.not_mem_nil, or_false] at hc
        rcases hc with ⟨o, _, (h | ⟨v, _, h⟩) | h⟩ <;> subst h <;> rfl
      have hrun : render_edges env build (n + 2) (Geometry.polySet ps) csgmode =
          some ⟨[GLCall.glDisable GLCap.LIGHTING] ++
            ps.outlines.flatMap (fun o =>
              [GLCall.glBegin GLPrim.LINE_LOOP] ++
              o.vertices.map (fun v => GLCall.glVertex3d v.x v.y 0) ++ [GLCall.glEnd]) ++
            [GLCall.glEnable GLCap.LIGHTING], true⟩ := by
        simp only [render_edges, if_pos h2, if_pos hn]
      exact ⟨_, _, hrun, by simp [h2], hb, by simp, fin _ true hb⟩
    · obtain ⟨body, hbody, hb⟩ := concatRuns_untouched
        (outlineEdges (n + 2) (zbaseOf env csgmode)) ps.outlines
        (fun o _ => outlineEdges_untouched n _ (zbaseOf_pos env csgmode) o)
      have hrun : render_edges env build (n + 2) (Geometry.polySet ps) csgmode =
          some ⟨[GLCall.glDisable GLCap.LIGHTING] ++ body ++
            [GLCall.glEnable GLCap.LIGHTING], true⟩ := by
        simp only [render_edges, if_pos h2, if_neg hn, hbody]
      exact ⟨_, body, hrun, by simp [h2], hb, by simp, fin _ true hb⟩
  · by_cases h3 : ps.dimension = 3
    · have hb : ∀ c ∈ ps.polygons.flatMap (fun poly =>
          [GLCall.glBegin GLPrim.LINE_LOOP] ++
          poly.map (fun p => GLCall.glVertex3d p.x p.y p.z) ++ [GLCall.glEnd]),
          touchesLighting c = false := by
        intro c hc
        simp only [List.mem_append, List.mem_flatMap, List.mem_map, List.mem_cons,
          List.mem_singleton, List.not_mem_nil, or_false] at hc
        rcases hc with ⟨o, _, (h | ⟨v, _, h⟩) | h⟩ <;> subst h <;> rfl
      have hrun : render_edges env build (n + 2) (Geometry.polySet ps) csgmode =
          some ⟨[GLCall.glDisable GLCap.LIGHTING] ++
            ps.polygons.flatMap (fun poly =>
              [GLCall.glBegin GLPrim.LINE_LOOP] ++
              poly.map (fun p => GLCall.glVertex3d p.x p.y p.z) ++ [GLCall.glEnd]) ++
            [GLCall.glEnable GLCap.LIGHTING], true⟩ := by
        simp only [render_edges, if_neg h2, if_pos h3]
      exact ⟨_, _, hrun, by simp [h3], hb, by simp, fin _ true hb⟩
    · cases hnd : build.NDEBUG
      · have hrun : render_edges env build (n + 2) (Geometry.polySet ps) csgmode =
            some ⟨[GLCall.glDisable GLCap.LIGHTING], false⟩ := by
          simp only [render_edges, if_neg h2, if_neg h3, hnd, Bool.false_eq_true, if_false]
        exact ⟨_, [], hrun, by simp [h2, h3], by simp, by simp, fin [] false (by simp)⟩
      · have hrun : render_edges env build (n + 2) (Geometry.polySet ps) csgmode =
            some ⟨[GLCall.glDisable GLCap.LIGHTING, GLCall.glEnable GLCap.LIGHTING], true⟩ := by
          simp only [render_edges, if_neg h2, if_neg h3, hnd, if_true]
        exact ⟨_, [], hrun, by simp [h2, h3], by simp, by simp, fin [] true (by simp)⟩

end OpenSCAD
